import Mathlib

/-!
# Verification of the text-generation orchestration core

Shallow embedding of the generation orchestration layer of the
`creative-ai-suite-v2` repository: the retry engine, error classification,
response cache key/TTL policy, dispatcher parameter resolution, backend
selection and the batch coordinator
(`services/text-engine/src/services/openai.service.js` and the
text-generation controller).

Strings are embedded as Lean `String`s (logically lists of characters);
byte strings (the UTF-8 bytes fed to base64) as `List Nat` with every
element `< 256`; JavaScript numbers that appear in cache keys as canonical
decimal representations (`JSNum`).
-/

namespace CreativeAI

/-- Substring test on character lists: JavaScript `haystack.includes(needle)`. -/
def hasInfixChars (needle : List Char) : List Char → Bool
  | [] => needle.isEmpty
  | c :: rest => needle.isPrefixOf (c :: rest) || hasInfixChars needle rest

/-- JavaScript `s.includes(t)` on embedded strings. -/
def strIncludes (haystack needle : String) : Bool :=
  hasInfixChars needle.data haystack.data

/-- `error.response` of a raw backend failure: HTTP status plus the optional
`data.error.code` sub-code carried in the response body. -/
structure HttpResponse where
  status : Nat
  dataErrorCode : Option String
deriving DecidableEq, Repr

/-- A raw backend failure as the service code observes it: a message, an
optional low-level error `code`, and an optional HTTP response. -/
structure RawError where
  message : String
  code : Option String
  response : Option HttpResponse
deriving DecidableEq, Repr

/-- `isRetryableError` from `openai.service.js` (lines 72–89): timeout
message or `ETIMEDOUT` first; then, if a response is present, only the
status list `[429, 500, 502, 503, 504]`; otherwise the low-level
connection-failure codes. -/
def isRetryableError (e : RawError) : Bool :=
  if strIncludes e.message "timed out" || e.code == some "ETIMEDOUT" then
    true
  else
    match e.response with
    | some r => (r.status == 429) || (r.status == 500) || (r.status == 502) ||
        (r.status == 503) || (r.status == 504)
    | none =>
        e.code == some "ECONNRESET" ||
        e.code == some "ECONNREFUSED" ||
        e.code == some "ENOTFOUND"

/-- The `ERROR_CODES` constants referenced by the service and controller
(an enumeration of distinct symbolic codes; their concrete values are
irrelevant, only their distinctness). -/
inductive ErrorCode
  | CONTEXT_LENGTH_EXCEEDED
  | UNAUTHORIZED
  | FORBIDDEN
  | RESOURCE_NOT_FOUND
  | RATE_LIMIT_EXCEEDED
  | VALIDATION_ERROR
  | TOO_MANY_REQUESTS
deriving DecidableEq, Repr

/-- Result of `mapToServiceError`: either one of the freshly constructed
errors carrying an `errorCode`, the original raw error passed through
unchanged, or the `'Unknown error occurred'` error built when the input
is null. -/
inductive ServiceError
  | ctxLengthErr
  | unauthorizedErr
  | forbiddenErr
  | notFoundErr
  | rateLimitErr
  | passthrough (e : RawError)
  | unknownNull
deriving DecidableEq, Repr

/-- `mapToServiceError` from `openai.service.js` (lines 106–146). The
`case 400` branch without the context-length sub-code `break`s out of the
switch and falls through to returning the original error. -/
def mapToServiceError : Option RawError → ServiceError
  | none => .unknownNull
  | some e =>
    match e.response with
    | some r =>
      if r.status = 400 then
        if r.dataErrorCode = some "context_length_exceeded" then .ctxLengthErr
        else .passthrough e
      else if r.status = 401 then .unauthorizedErr
      else if r.status = 403 then .forbiddenErr
      else if r.status = 404 then .notFoundErr
      else if r.status = 429 then .rateLimitErr
      else .passthrough e
    | none => .passthrough e

/-- The `errorCode` field attached by `mapToServiceError`, if any
(passthrough errors carry none). -/
def serviceErrorCode : ServiceError → Option ErrorCode
  | .ctxLengthErr => some .CONTEXT_LENGTH_EXCEEDED
  | .unauthorizedErr => some .UNAUTHORIZED
  | .forbiddenErr => some .FORBIDDEN
  | .notFoundErr => some .RESOURCE_NOT_FOUND
  | .rateLimitErr => some .RATE_LIMIT_EXCEEDED
  | .passthrough _ => none
  | .unknownNull => none

/-- Terminal state of one `executeWithRetry` invocation, recording how many
attempts were made. -/
inductive RetryOutcome (α : Type)
  | succeeded (v : α) (attemptsMade : Nat)
  | exhausted (e : ServiceError) (attemptsMade : Nat)
deriving DecidableEq, Repr

/-- Number of attempts a finished retry run made. -/
def RetryOutcome.attempts : RetryOutcome α → Nat
  | .succeeded _ n => n
  | .exhausted _ n => n

/-- `DEFAULT_CONFIG` of `openai.service.js` (lines 20–24). -/
structure RetryConfig where
  maxRetries : Nat
  retryDelay : Nat
  timeout : Nat
deriving DecidableEq, Repr

def DEFAULT_CONFIG : RetryConfig :=
  { maxRetries := 2, retryDelay := 1000, timeout := 30000 }

/-- The loop body of `executeWithRetry` (lines 33–63): attempt `attempt`
runs `op attempt`; on success the loop returns; on failure the error is
remembered as `lastError` and the loop continues exactly when the error is
retryable and the attempt count has not reached `maxRetries`.  `fuel`
bounds the recursion; `executeWithRetry` supplies `maxRetries + 1`, enough
for the loop bound `attempt <= maxRetries`. -/
def retryGo (op : Nat → Except RawError α) (maxRetries : Nat) :
    Nat → Option RawError → Nat → RetryOutcome α
  | attempt, lastError, 0 => .exhausted (mapToServiceError lastError) attempt
  | attempt, _, fuel + 1 =>
    match op attempt with
    | .ok v => .succeeded v (attempt + 1)
    | .error e =>
      if isRetryableError e && !(attempt == maxRetries) then
        retryGo op maxRetries (attempt + 1) (some e) fuel
      else
        .exhausted (mapToServiceError (some e)) (attempt + 1)

/-- `executeWithRetry` from `openai.service.js` (lines 29–67), with the
wrapped operation abstracted as the outcome of each attempt (a per-attempt
timeout surfaces as a `'Request timed out'` failure of that attempt). -/
def executeWithRetry (op : Nat → Except RawError α) (maxRetries : Nat) :
    RetryOutcome α :=
  retryGo op maxRetries 0 none (maxRetries + 1)

/-! ## The specification's uniform error taxonomy (for comparison) -/

/-- Sub-kind of `InvalidInput` in the specification's taxonomy. -/
inductive InvalidKind
  | contextLengthExceeded
  | other
deriving DecidableEq, Repr

/-- The specification's uniform `ErrorKind` taxonomy (spec §4.2). -/
inductive ErrorKind
  | timeout
  | rateLimited
  | serverTransient
  | invalidInput (k : InvalidKind)
  | unauthorized
  | forbidden
  | notFound
  | networkTransient
  | unknown
deriving DecidableEq, Repr

/-- Whether a raw error carries the timeout indication (message contains
`'timed out'`, or code `ETIMEDOUT`). -/
def hasTimeoutMarker (e : RawError) : Bool :=
  strIncludes e.message "timed out" || e.code == some "ETIMEDOUT"

/-- Whether a raw error carries a low-level connection-failure code
(reset, refused, DNS failure). -/
def hasConnFailureCode (e : RawError) : Bool :=
  e.code == some "ECONNRESET" ||
  e.code == some "ECONNREFUSED" ||
  e.code == some "ENOTFOUND"

/-- Spec-side classifier, written from the spec's decision table (§4.2),
rows applied first-match-wins in the order the spec lists them: timeout;
429; 500/502/503/504; 400 with context-length sub-code; 401; 403; 404;
connection failures; anything else `Unknown`.  This definition follows the
spec's words; it is compared against the source functions
`isRetryableError` and `mapToServiceError`. -/
def classifySpec (e : RawError) : ErrorKind :=
  if hasTimeoutMarker e then .timeout
  else if e.response.any (fun r => r.status == 429) then .rateLimited
  else if e.response.any (fun r =>
      r.status == 500 || r.status == 502 || r.status == 503 || r.status == 504) then
    .serverTransient
  else if e.response.any (fun r =>
      r.status == 400 && r.dataErrorCode == some "context_length_exceeded") then
    .invalidInput .contextLengthExceeded
  else if e.response.any (fun r => r.status == 401) then .unauthorized
  else if e.response.any (fun r => r.status == 403) then .forbidden
  else if e.response.any (fun r => r.status == 404) then .notFound
  else if hasConnFailureCode e then .networkTransient
  else .unknown

/-- The spec's retryable set (§4.2):
`{Timeout, RateLimited, ServerTransient, NetworkTransient}`. -/
def retryableSpec : ErrorKind → Bool
  | .timeout => true
  | .rateLimited => true
  | .serverTransient => true
  | .networkTransient => true
  | _ => false

/-- The structured error code the spec's taxonomy expects the surfaced
service error to carry: the non-retryable response-status kinds map to the
corresponding `ERROR_CODES` constant; all other kinds are surfaced as the
raw error itself, carrying no attached code. -/
def specErrorCode : ErrorKind → Option ErrorCode
  | .invalidInput .contextLengthExceeded => some .CONTEXT_LENGTH_EXCEEDED
  | .unauthorized => some .UNAUTHORIZED
  | .forbidden => some .FORBIDDEN
  | .notFound => some .RESOURCE_NOT_FOUND
  | .rateLimited => some .RATE_LIMIT_EXCEEDED
  | _ => none

/-! ## Retry engine lemmas -/

theorem retryGo_attempts_le (op : Nat → Except RawError α) (m : Nat) :
    ∀ (fuel a : Nat) (l : Option RawError),
      (retryGo op m a l fuel).attempts ≤ a + fuel := by
  intro fuel
  induction fuel with
  | zero => intro a l; simp [retryGo, RetryOutcome.attempts]
  | succ f ih =>
    intro a l
    cases h : op a with
    | ok v => simp only [retryGo, h, RetryOutcome.attempts]; omega
    | error e =>
      simp only [retryGo, h]
      by_cases hc : (isRetryableError e && !(a == m)) = true
      · rw [if_pos hc]
        have := ih (a + 1) (some e)
        omega
      · rw [if_neg hc]
        simp only [RetryOutcome.attempts]
        omega

theorem retryGo_attempts_ge (op : Nat → Except RawError α) (m : Nat) :
    ∀ (fuel a : Nat) (l : Option RawError),
      a ≤ (retryGo op m a l fuel).attempts := by
  intro fuel
  induction fuel with
  | zero => intro a l; simp [retryGo, RetryOutcome.attempts]
  | succ f ih =>
    intro a l
    cases h : op a with
    | ok v => simp [retryGo, h, RetryOutcome.attempts]
    | error e =>
      simp only [retryGo, h]
      by_cases hc : (isRetryableError e && !(a == m)) = true
      · rw [if_pos hc]
        have := ih (a + 1) (some e)
        omega
      · rw [if_neg hc]
        simp [RetryOutcome.attempts]

theorem retryGo_attempts_ge_one (op : Nat → Except RawError α) (m : Nat)
    (fuel a : Nat) (l : Option RawError) (hf : 1 ≤ fuel) :
    a + 1 ≤ (retryGo op m a l fuel).attempts := by
  cases fuel with
  | zero => omega
  | succ f =>
    cases h : op a with
    | ok v => simp [retryGo, h, RetryOutcome.attempts]
    | error e =>
      simp only [retryGo, h]
      by_cases hc : (isRetryableError e && !(a == m)) = true
      · rw [if_pos hc]
        have := retryGo_attempts_ge op m f (a + 1) (some e)
        omega
      · rw [if_neg hc]
        simp [RetryOutcome.attempts]

/-- Characterization of re-attempting: within a run of the retry loop
started at attempt `a` with adequate fuel, a made attempt `k` is followed
by attempt `k + 1` exactly when `op k` failed with a retryable error and
`k` is below `maxRetries`. -/
theorem retryGo_reattempt_iff (op : Nat → Except RawError α) (m : Nat) :
    ∀ (fuel a : Nat) (l : Option RawError), fuel = m + 1 - a →
      ∀ k, a ≤ k → k < (retryGo op m a l fuel).attempts →
        (k + 1 < (retryGo op m a l fuel).attempts ↔
          (∃ e, op k = Except.error e ∧ isRetryableError e = true) ∧ k < m) := by
  intro fuel
  induction fuel with
  | zero =>
    intro a l _ k hak hk
    simp only [retryGo, RetryOutcome.attempts] at hk
    omega
  | succ f ih =>
    intro a l hf k hak hk
    have ham : a ≤ m := by omega
    cases h : op a with
    | ok v =>
      simp only [retryGo, h, RetryOutcome.attempts] at hk ⊢
      have hka : k = a := by omega
      subst hka
      constructor
      · intro hlt; omega
      · rintro ⟨⟨e, he, _⟩, _⟩
        rw [h] at he
        exact absurd he (by simp)
    | error e =>
      simp only [retryGo, h] at hk ⊢
      by_cases hc : (isRetryableError e && !(a == m)) = true
      · rw [if_pos hc] at hk ⊢
        have hretry : isRetryableError e = true := by
          cases hr : isRetryableError e <;> simp [hr] at hc ⊢
        have hne : a ≠ m := by
          intro hEq
          simp [hEq] at hc
        have hlt : a < m := by omega
        by_cases hka : k = a
        · subst hka
          constructor
          · intro _; exact ⟨⟨e, h, hretry⟩, hlt⟩
          · intro _
            have := retryGo_attempts_ge_one op m f (k + 1) (some e) (by omega)
            omega
        · exact ih (a + 1) (some e) (by omega) k (by omega) hk
      · rw [if_neg hc] at hk ⊢
        simp only [RetryOutcome.attempts] at hk ⊢
        have hka : k = a := by omega
        subst hka
        constructor
        · intro hcontra; omega
        · rintro ⟨⟨e', he', hre'⟩, hkm⟩
          rw [h] at he'
          injection he' with hee
          subst hee
          simp [hre'] at hc
          omega

/-! ## Cache TTL policy -/

/-- The cache TTL computed in `generateText` (`openai.service.js` lines
226–232): `Math.min(24*60*60, Math.max(60*30, totalTokens * 20))`. -/
def cacheTTL (totalTokens : Nat) : Nat :=
  min (24 * 60 * 60) (max (60 * 30) (totalTokens * 20))

/-! ## Decimal rendering of JavaScript numbers -/

/-- Little-endian decimal digits of `n`; `fuel`-bounded division loop
(`natDigits` supplies `n` itself as fuel, which is sufficient). -/
def natDigitsAux : Nat → Nat → List Nat
  | 0, _ => []
  | fuel + 1, n => if n = 0 then [] else n % 10 :: natDigitsAux fuel (n / 10)

/-- Little-endian decimal digits of a natural number (empty for `0`). -/
def natDigits (n : Nat) : List Nat :=
  natDigitsAux n n

/-- Value of a little-endian decimal digit list. -/
def digitsVal : List Nat → Nat
  | [] => 0
  | d :: ds => d + 10 * digitsVal ds

theorem natDigitsAux_val (fuel : Nat) :
    ∀ n, n ≤ fuel → digitsVal (natDigitsAux fuel n) = n := by
  induction fuel with
  | zero => intro n hn; interval_cases n; simp [natDigitsAux, digitsVal]
  | succ f ih =>
    intro n hn
    by_cases h0 : n = 0
    · simp [natDigitsAux, h0, digitsVal]
    · have hdiv : n / 10 ≤ f := by
        have h10 : n / 10 < n := Nat.div_lt_self (Nat.pos_of_ne_zero h0) (by norm_num)
        omega
      simp only [natDigitsAux, h0, if_neg, digitsVal, ih (n / 10) hdiv]
      omega

theorem digitsVal_natDigits (n : Nat) : digitsVal (natDigits n) = n :=
  natDigitsAux_val n n le_rfl

theorem natDigits_injective : Function.Injective natDigits := by
  intro m n h
  have := digitsVal_natDigits m
  rw [h, digitsVal_natDigits] at this
  omega

theorem natDigitsAux_lt (fuel : Nat) :
    ∀ n d, d ∈ natDigitsAux fuel n → d < 10 := by
  induction fuel with
  | zero => intro n d hd; simp [natDigitsAux] at hd
  | succ f ih =>
    intro n d hd
    by_cases h0 : n = 0
    · simp [natDigitsAux, h0] at hd
    · rw [natDigitsAux, if_neg h0] at hd
      rcases List.mem_cons.mp hd with h | h
      · omega
      · exact ih _ _ h

theorem natDigits_lt (n d : Nat) (hd : d ∈ natDigits n) : d < 10 :=
  natDigitsAux_lt n n d hd

/-- Decimal digit characters. -/
def decChars : List Char := ['0', '1', '2', '3', '4', '5', '6', '7', '8', '9']

/-- Character for a single decimal digit. -/
def digitChar (d : Nat) : Char := decChars.getD d '*'

/-- Decimal rendering of a natural number, as JavaScript string
interpolation renders integer-valued numbers (`0` renders as `"0"`). -/
def natRender (n : Nat) : List Char :=
  if n = 0 then ['0'] else ((natDigits n).map digitChar).reverse

theorem digitChar_inj :
    ∀ d < 10, ∀ e < 10, digitChar d = digitChar e → d = e := by decide

theorem digitChar_ne_colon (d : Nat) : digitChar d ≠ ':' := by
  unfold digitChar
  by_cases h : d < 10
  · interval_cases d <;> decide
  · rw [List.getD_eq_default]
    · decide
    · simp only [decChars, List.length]
      omega

theorem digitChar_ne_dot (d : Nat) : digitChar d ≠ '.' := by
  unfold digitChar
  by_cases h : d < 10
  · interval_cases d <;> decide
  · rw [List.getD_eq_default]
    · decide
    · simp only [decChars, List.length]
      omega

theorem map_digitChar_inj (l1 l2 : List Nat) (h1 : ∀ d ∈ l1, d < 10)
    (h2 : ∀ d ∈ l2, d < 10) (hmap : l1.map digitChar = l2.map digitChar) :
    l1 = l2 := by
  induction l1 generalizing l2 with
  | nil => cases l2 <;> simp_all
  | cons d ds ih =>
    cases l2 with
    | nil => simp at hmap
    | cons e es =>
      simp only [List.map_cons, List.cons.injEq] at hmap
      have hde : d = e := digitChar_inj d (h1 d (by simp)) e (h2 e (by simp))
        hmap.1
      have := ih es (fun x hx => h1 x (List.mem_cons_of_mem _ hx))
        (fun x hx => h2 x (List.mem_cons_of_mem _ hx)) hmap.2
      rw [hde, this]

theorem natRender_ne_zero_render (n : Nat) (hn : n ≠ 0) :
    natRender n ≠ ['0'] := by
  unfold natRender
  rw [if_neg hn]
  intro h
  have hrev : (natDigits n).map digitChar = ['0'] := by
    have := congrArg List.reverse h
    simpa using this
  rcases hd : natDigits n with _ | ⟨d, ds⟩
  · rw [hd] at hrev; simp at hrev
  · rw [hd] at hrev
    rcases ds with _ | ⟨d2, ds2⟩
    · simp only [List.map_cons, List.map_nil, List.cons.injEq, and_true] at hrev
      have hd10 : d < 10 := natDigits_lt n d (by rw [hd]; simp)
      have hd0 : d = 0 := by
        refine digitChar_inj d hd10 0 (by omega) ?_
        rw [hrev]; decide
      have hval := digitsVal_natDigits n
      rw [hd, hd0] at hval
      simp [digitsVal] at hval
      omega
    · have := congrArg List.length hrev
      simp at this

theorem natRender_injective : Function.Injective natRender := by
  intro m n h
  by_cases hm : m = 0 <;> by_cases hn : n = 0
  · omega
  · subst hm
    have h0 : natRender 0 = ['0'] := by simp [natRender]
    rw [h0] at h
    exact absurd h.symm (natRender_ne_zero_render n hn)
  · subst hn
    have h0 : natRender 0 = ['0'] := by simp [natRender]
    rw [h0] at h
    exact absurd h (natRender_ne_zero_render m hm)
  · unfold natRender at h
    rw [if_neg hm, if_neg hn] at h
    have h2 := List.reverse_injective h
    have h3 : natDigits m = natDigits n :=
      map_digitChar_inj _ _ (fun d hd => natDigits_lt m d hd)
        (fun d hd => natDigits_lt n d hd) h2
    exact natDigits_injective h3

theorem natRender_ne_colon (n : Nat) : ∀ c ∈ natRender n, c ≠ ':' := by
  intro c hc
  unfold natRender at hc
  by_cases h : n = 0
  · rw [if_pos h] at hc
    simp at hc
    subst hc
    decide
  · rw [if_neg h] at hc
    simp only [List.mem_reverse, List.mem_map] at hc
    obtain ⟨d, _, rfl⟩ := hc
    exact digitChar_ne_colon d

theorem natRender_ne_dot (n : Nat) : ∀ c ∈ natRender n, c ≠ '.' := by
  intro c hc
  unfold natRender at hc
  by_cases h : n = 0
  · rw [if_pos h] at hc
    simp at hc
    subst hc
    decide
  · rw [if_neg h] at hc
    simp only [List.mem_reverse, List.mem_map] at hc
    obtain ⟨d, _, rfl⟩ := hc
    exact digitChar_ne_dot d

/-- Canonical decimal form of a JavaScript number as template-string
interpolation prints it: integer part and fraction digits (`0.7` is
`⟨0, [7]⟩`, `2` is `⟨2, []⟩`).  JavaScript never prints a trailing zero in
the fraction, so canonical values have no trailing `0` digit. -/
structure JSNum where
  ip : Nat
  frac : List Nat
deriving DecidableEq, Repr

/-- Validity of a `JSNum`: fraction digits are decimal digits and the
fraction carries no trailing zero (canonical printed form). -/
def JSNum.valid (t : JSNum) : Prop :=
  (∀ d ∈ t.frac, d < 10) ∧ t.frac.getLast? ≠ some 0

instance (t : JSNum) : Decidable t.valid := by
  unfold JSNum.valid; infer_instance

/-- Rendering of a JavaScript number: integer part, then `.` and the
fraction digits when the fraction is non-empty. -/
def jsNumRender (t : JSNum) : List Char :=
  natRender t.ip ++ (if t.frac = [] then [] else '.' :: t.frac.map digitChar)

/-- Splitting at the first occurrence of a separator: if neither prefix
contains `c`, equal `prefix ++ c :: rest` decompositions coincide. -/
theorem sep_split_first (c : Char) :
    ∀ (P1 P2 R1 R2 : List Char), c ∉ P1 → c ∉ P2 →
      P1 ++ c :: R1 = P2 ++ c :: R2 → P1 = P2 ∧ R1 = R2 := by
  intro P1
  induction P1 with
  | nil =>
    intro P2 R1 R2 _ h2 h
    cases P2 with
    | nil => simpa using h
    | cons d P2' =>
      simp only [List.nil_append, List.cons_append, List.cons.injEq] at h
      exact absurd (h.1 ▸ List.mem_cons_self d P2') h2
  | cons d P1' ih =>
    intro P2 R1 R2 h1 h2 h
    cases P2 with
    | nil =>
      simp only [List.nil_append, List.cons_append, List.cons.injEq] at h
      exact absurd (h.1.symm ▸ List.mem_cons_self d P1') h1
    | cons e P2' =>
      simp only [List.cons_append, List.cons.injEq] at h
      have hde : d = e := h.1
      have := ih P2' R1 R2 (fun hc => h1 (List.mem_cons_of_mem _ hc))
        (fun hc => h2 (List.mem_cons_of_mem _ hc)) h.2
      exact ⟨by rw [hde, this.1], this.2⟩

/-- Splitting at the last occurrence of a separator: if neither suffix
contains `c`, equal `front ++ c :: suffix` decompositions coincide. -/
theorem sep_split_last (c : Char) (A1 A2 S1 S2 : List Char)
    (h1 : c ∉ S1) (h2 : c ∉ S2) (h : A1 ++ c :: S1 = A2 ++ c :: S2) :
    A1 = A2 ∧ S1 = S2 := by
  have hrev := congrArg List.reverse h
  simp only [List.reverse_append, List.reverse_cons, List.append_assoc,
    List.singleton_append] at hrev
  have := sep_split_first c S1.reverse S2.reverse A1.reverse A2.reverse
    (by simpa using h1) (by simpa using h2) hrev
  constructor
  · exact List.reverse_injective this.2
  · exact List.reverse_injective this.1

theorem jsNumRender_ne_colon (t : JSNum) : ∀ c ∈ jsNumRender t, c ≠ ':' := by
  intro c hc
  unfold jsNumRender at hc
  rw [List.mem_append] at hc
  rcases hc with hc | hc
  · exact natRender_ne_colon t.ip c hc
  · by_cases hf : t.frac = []
    · rw [if_pos hf] at hc; simp at hc
    · rw [if_neg hf] at hc
      rcases List.mem_cons.mp hc with rfl | hc
      · decide
      · obtain ⟨d, _, rfl⟩ := List.mem_map.mp hc
        exact digitChar_ne_colon d

theorem jsNumRender_inj (t1 t2 : JSNum)
    (h1 : ∀ d ∈ t1.frac, d < 10) (h2 : ∀ d ∈ t2.frac, d < 10)
    (h : jsNumRender t1 = jsNumRender t2) : t1 = t2 := by
  obtain ⟨i1, f1⟩ := t1
  obtain ⟨i2, f2⟩ := t2
  simp only [jsNumRender] at h
  by_cases hf1 : f1 = [] <;> by_cases hf2 : f2 = []
  · rw [if_pos hf1, if_pos hf2] at h
    simp only [List.append_nil] at h
    rw [hf1, hf2, natRender_injective h]
  · rw [if_pos hf1, if_neg hf2] at h
    simp only [List.append_nil] at h
    have hdot : '.' ∈ natRender i1 := by
      rw [h, List.mem_append]
      right
      simp
    exact absurd rfl (natRender_ne_dot i1 '.' hdot)
  · rw [if_neg hf1, if_pos hf2] at h
    simp only [List.append_nil] at h
    have hdot : '.' ∈ natRender i2 := by
      rw [← h, List.mem_append]
      right
      simp
    exact absurd rfl (natRender_ne_dot i2 '.' hdot)
  · rw [if_neg hf1, if_neg hf2] at h
    have := sep_split_first '.' (natRender i1) (natRender i2)
      (f1.map digitChar) (f2.map digitChar)
      (fun hc => natRender_ne_dot i1 '.' hc rfl)
      (fun hc => natRender_ne_dot i2 '.' hc rfl) h
    have hi : i1 = i2 := natRender_injective this.1
    have hf : f1 = f2 := map_digitChar_inj f1 f2 h1 h2 this.2
    rw [hi, hf]

/-! ## Base64 encoding (`Buffer.from(s).toString('base64')`) -/

/-- The standard base64 alphabet. -/
def b64Alphabet : List Char :=
  ['A', 'B', 'C', 'D', 'E', 'F', 'G', 'H', 'I', 'J', 'K', 'L', 'M',
   'N', 'O', 'P', 'Q', 'R', 'S', 'T', 'U', 'V', 'W', 'X', 'Y', 'Z',
   'a', 'b', 'c', 'd', 'e', 'f', 'g', 'h', 'i', 'j', 'k', 'l', 'm',
   'n', 'o', 'p', 'q', 'r', 's', 't', 'u', 'v', 'w', 'x', 'y', 'z',
   '0', '1', '2', '3', '4', '5', '6', '7', '8', '9', '+', '/']

/-- Character for one 6-bit group. -/
def b64Char (i : Nat) : Char := b64Alphabet.getD i '*'

/-- Base64 encoding of a byte sequence, with `=` padding, as
`Buffer.prototype.toString('base64')` produces it. -/
def base64Encode : List Nat → List Char
  | [] => []
  | [b1] => [b64Char (b1 / 4), b64Char (b1 % 4 * 16), '=', '=']
  | [b1, b2] =>
      [b64Char (b1 / 4), b64Char (b1 % 4 * 16 + b2 / 16),
       b64Char (b2 % 16 * 4), '=']
  | b1 :: b2 :: b3 :: rest =>
      b64Char (b1 / 4) :: b64Char (b1 % 4 * 16 + b2 / 16) ::
      b64Char (b2 % 16 * 4 + b3 / 64) :: b64Char (b3 % 64) ::
      base64Encode rest

theorem b64Char_inj : ∀ i < 64, ∀ j < 64, b64Char i = b64Char j → i = j := by
  decide

theorem b64Char_ne_pad : ∀ i < 64, b64Char i ≠ '=' := by decide

theorem b64Char_ne_colon (i : Nat) : b64Char i ≠ ':' := by
  by_cases h : i < 64
  · revert i
    decide
  · unfold b64Char
    rw [List.getD_eq_default]
    · decide
    · simp only [b64Alphabet, List.length]
      omega

/-- A byte sequence: every element below 256. -/
def ValidBytes (l : List Nat) : Prop := ∀ b ∈ l, b < 256

instance (l : List Nat) : Decidable (ValidBytes l) := by
  unfold ValidBytes; infer_instance

theorem base64Encode_ne_colon : ∀ (l : List Nat), ∀ c ∈ base64Encode l, c ≠ ':'
  | [] => by intro c hc; simp [base64Encode] at hc
  | [b1] => by
    intro c hc
    simp only [base64Encode, List.mem_cons, List.not_mem_nil, or_false] at hc
    rcases hc with rfl | rfl | rfl | rfl
    · exact b64Char_ne_colon _
    · exact b64Char_ne_colon _
    · decide
    · decide
  | [b1, b2] => by
    intro c hc
    simp only [base64Encode, List.mem_cons, List.not_mem_nil, or_false] at hc
    rcases hc with rfl | rfl | rfl | rfl
    · exact b64Char_ne_colon _
    · exact b64Char_ne_colon _
    · exact b64Char_ne_colon _
    · decide
  | b1 :: b2 :: b3 :: rest => by
    intro c hc
    simp only [base64Encode, List.mem_cons] at hc
    rcases hc with rfl | rfl | rfl | rfl | hc
    · exact b64Char_ne_colon _
    · exact b64Char_ne_colon _
    · exact b64Char_ne_colon _
    · exact b64Char_ne_colon _
    · exact base64Encode_ne_colon rest c hc

theorem base64Encode_inj : ∀ (l1 l2 : List Nat),
    ValidBytes l1 → ValidBytes l2 →
    base64Encode l1 = base64Encode l2 → l1 = l2
  | [], [], _, _, _ => rfl
  | [], [b1], _, _, h => by simp [base64Encode] at h
  | [], [b1, b2], _, _, h => by simp [base64Encode] at h
  | [], b1 :: b2 :: b3 :: r, _, _, h => by simp [base64Encode] at h
  | [b1], [], _, _, h => by simp [base64Encode] at h
  | [b1, b2], [], _, _, h => by simp [base64Encode] at h
  | b1 :: b2 :: b3 :: r, [], _, _, h => by simp [base64Encode] at h
  | [b1], [c1], h1, h2, h => by
    simp only [base64Encode, List.cons.injEq, and_true] at h
    have hb1 : b1 < 256 := h1 b1 (by simp)
    have hc1 : c1 < 256 := h2 c1 (by simp)
    have e1 : b1 / 4 = c1 / 4 :=
      b64Char_inj _ (by omega) _ (by omega) h.1
    have e2 : b1 % 4 * 16 = c1 % 4 * 16 :=
      b64Char_inj _ (by omega) _ (by omega) h.2
    have : b1 = c1 := by omega
    rw [this]
  | [b1], [c1, c2], h1, h2, h => by
    simp only [base64Encode, List.cons.injEq] at h
    have hc2 : c2 < 256 := h2 c2 (by simp)
    exact absurd h.2.2.1.symm (b64Char_ne_pad _ (by omega))
  | [b1], c1 :: c2 :: c3 :: r, h1, h2, h => by
    simp only [base64Encode, List.cons.injEq] at h
    have hc3 : c3 < 256 := h2 c3 (by simp)
    exact absurd h.2.2.2.1.symm (b64Char_ne_pad _ (by omega))
  | [b1, b2], [c1], h1, h2, h => by
    simp only [base64Encode, List.cons.injEq] at h
    have hb2 : b2 < 256 := h1 b2 (by simp)
    exact absurd h.2.2.1 (b64Char_ne_pad _ (by omega))
  | [b1, b2], [c1, c2], h1, h2, h => by
    simp only [base64Encode, List.cons.injEq, and_true] at h
    have hb1 : b1 < 256 := h1 b1 (by simp)
    have hb2 : b2 < 256 := h1 b2 (by simp)
    have hc1 : c1 < 256 := h2 c1 (by simp)
    have hc2 : c2 < 256 := h2 c2 (by simp)
    have e1 : b1 / 4 = c1 / 4 :=
      b64Char_inj _ (by omega) _ (by omega) h.1
    have e2 : b1 % 4 * 16 + b2 / 16 = c1 % 4 * 16 + c2 / 16 :=
      b64Char_inj _ (by omega) _ (by omega) h.2.1
    have e3 : b2 % 16 * 4 = c2 % 16 * 4 :=
      b64Char_inj _ (by omega) _ (by omega) h.2.2
    have hb : b1 = c1 ∧ b2 = c2 := by omega
    rw [hb.1, hb.2]
  | [b1, b2], c1 :: c2 :: c3 :: r, h1, h2, h => by
    simp only [base64Encode, List.cons.injEq] at h
    have hc3 : c3 < 256 := h2 c3 (by simp)
    exact absurd h.2.2.2.1.symm (b64Char_ne_pad _ (by omega))
  | b1 :: b2 :: b3 :: r, [c1], h1, h2, h => by
    simp only [base64Encode, List.cons.injEq] at h
    have hb3 : b3 < 256 := h1 b3 (by simp)
    exact absurd h.2.2.2.1 (b64Char_ne_pad _ (by omega))
  | b1 :: b2 :: b3 :: r, [c1, c2], h1, h2, h => by
    simp only [base64Encode, List.cons.injEq] at h
    have hb3 : b3 < 256 := h1 b3 (by simp)
    exact absurd h.2.2.2.1 (b64Char_ne_pad _ (by omega))
  | b1 :: b2 :: b3 :: r, c1 :: c2 :: c3 :: r2, h1, h2, h => by
    simp only [base64Encode, List.cons.injEq] at h
    have hb1 : b1 < 256 := h1 b1 (by simp)
    have hb2 : b2 < 256 := h1 b2 (by simp)
    have hb3 : b3 < 256 := h1 b3 (by simp)
    have hc1 : c1 < 256 := h2 c1 (by simp)
    have hc2 : c2 < 256 := h2 c2 (by simp)
    have hc3 : c3 < 256 := h2 c3 (by simp)
    have e1 : b1 / 4 = c1 / 4 :=
      b64Char_inj _ (by omega) _ (by omega) h.1
    have e2 : b1 % 4 * 16 + b2 / 16 = c1 % 4 * 16 + c2 / 16 :=
      b64Char_inj _ (by omega) _ (by omega) h.2.1
    have e3 : b2 % 16 * 4 + b3 / 64 = c2 % 16 * 4 + c3 / 64 :=
      b64Char_inj _ (by omega) _ (by omega) h.2.2.1
    have e4 : b3 % 64 = c3 % 64 :=
      b64Char_inj _ (by omega) _ (by omega) h.2.2.2.1
    have hr : r = r2 := base64Encode_inj r r2
      (fun b hb => h1 b (by simp [hb])) (fun b hb => h2 b (by simp [hb]))
      h.2.2.2.2
    have hb : b1 = c1 ∧ b2 = c2 ∧ b3 = c3 := by omega
    rw [hb.1, hb.2.1, hb.2.2, hr]

/-! ## Cache key derivation -/

/-- The cache key template of `generateText` (`openai.service.js` lines
165 and 224, character-identical at both sites):
`openai:text:${model}:${temperature}:${maxTokens}:${base64(prompt)}:${base64(systemPrompt)}`.
The prompt and system prompt enter as their UTF-8 byte sequences. -/
def textCacheKey (model : String) (temperature : JSNum) (maxTokens : Nat)
    (prompt systemPrompt : List Nat) : List Char :=
  "openai:text:".data ++ model.data ++
    (':' :: (jsNumRender temperature ++
      (':' :: (natRender maxTokens ++
        (':' :: (base64Encode prompt ++
          (':' :: base64Encode systemPrompt)))))))

/-- Splitting a five-field colon-joined encoding whose last four fields
are colon-free. -/
theorem key_split (A1 A2 B1 B2 C1 C2 D1 D2 E1 E2 : List Char)
    (hB1 : ':' ∉ B1) (hB2 : ':' ∉ B2) (hC1 : ':' ∉ C1) (hC2 : ':' ∉ C2)
    (hD1 : ':' ∉ D1) (hD2 : ':' ∉ D2) (hE1 : ':' ∉ E1) (hE2 : ':' ∉ E2)
    (h : A1 ++ ':' :: (B1 ++ ':' :: (C1 ++ ':' :: (D1 ++ ':' :: E1)))
       = A2 ++ ':' :: (B2 ++ ':' :: (C2 ++ ':' :: (D2 ++ ':' :: E2)))) :
    A1 = A2 ∧ B1 = B2 ∧ C1 = C2 ∧ D1 = D2 ∧ E1 = E2 := by
  have h1 : (A1 ++ ':' :: (B1 ++ ':' :: (C1 ++ ':' :: D1))) ++ ':' :: E1
      = (A2 ++ ':' :: (B2 ++ ':' :: (C2 ++ ':' :: D2))) ++ ':' :: E2 := by
    simpa [List.append_assoc] using h
  obtain ⟨h1f, hE⟩ := sep_split_last ':' _ _ _ _ hE1 hE2 h1
  have h2 : (A1 ++ ':' :: (B1 ++ ':' :: C1)) ++ ':' :: D1
      = (A2 ++ ':' :: (B2 ++ ':' :: C2)) ++ ':' :: D2 := by
    simpa [List.append_assoc] using h1f
  obtain ⟨h2f, hD⟩ := sep_split_last ':' _ _ _ _ hD1 hD2 h2
  have h3 : (A1 ++ ':' :: B1) ++ ':' :: C1 = (A2 ++ ':' :: B2) ++ ':' :: C2 := by
    simpa [List.append_assoc] using h2f
  obtain ⟨h3f, hC⟩ := sep_split_last ':' _ _ _ _ hC1 hC2 h3
  obtain ⟨hA, hB⟩ := sep_split_last ':' _ _ _ _ hB1 hB2 h3f
  exact ⟨hA, hB, hC, hD, hE⟩

theorem textCacheKey_injective
    (m1 m2 : String) (t1 t2 : JSNum) (x1 x2 : Nat)
    (p1 s1 p2 s2 : List Nat)
    (ht1 : ∀ d ∈ t1.frac, d < 10) (ht2 : ∀ d ∈ t2.frac, d < 10)
    (hp1 : ValidBytes p1) (hs1 : ValidBytes s1)
    (hp2 : ValidBytes p2) (hs2 : ValidBytes s2)
    (h : textCacheKey m1 t1 x1 p1 s1 = textCacheKey m2 t2 x2 p2 s2) :
    m1 = m2 ∧ t1 = t2 ∧ x1 = x2 ∧ p1 = p2 ∧ s1 = s2 := by
  unfold textCacheKey at h
  rw [List.append_assoc, List.append_assoc] at h
  have := key_split ("openai:text:".data ++ m1.data)
    ("openai:text:".data ++ m2.data)
    (jsNumRender t1) (jsNumRender t2) (natRender x1) (natRender x2)
    (base64Encode p1) (base64Encode p2) (base64Encode s1) (base64Encode s2)
    (fun hc => jsNumRender_ne_colon t1 ':' hc rfl)
    (fun hc => jsNumRender_ne_colon t2 ':' hc rfl)
    (fun hc => natRender_ne_colon x1 ':' hc rfl)
    (fun hc => natRender_ne_colon x2 ':' hc rfl)
    (fun hc => base64Encode_ne_colon p1 ':' hc rfl)
    (fun hc => base64Encode_ne_colon p2 ':' hc rfl)
    (fun hc => base64Encode_ne_colon s1 ':' hc rfl)
    (fun hc => base64Encode_ne_colon s2 ':' hc rfl)
    h
  obtain ⟨hA, hB, hC, hD, hE⟩ := this
  have hmdata : m1.data = m2.data := List.append_cancel_left hA
  have hm : m1 = m2 := by
    cases m1
    cases m2
    exact congrArg String.mk hmdata
  have ht : t1 = t2 := jsNumRender_inj t1 t2 ht1 ht2 hB
  have hx : x1 = x2 := natRender_injective hC
  have hp : p1 = p2 := base64Encode_inj p1 p2 hp1 hp2 hD
  have hs : s1 = s2 := base64Encode_inj s1 s2 hs1 hs2 hE
  exact ⟨hm, ht, hx, hp, hs⟩

/-! ## `generateText` dispatch -/

/-- The successful chat-completion response fields `generateText` consumes:
generated text (`choices[0].message.content`), token usage, and the
backend-reported model. -/
structure ApiResponse where
  content : String
  promptTokens : Nat
  completionTokens : Nat
  totalTokens : Nat
  modelEcho : String
deriving DecidableEq, Repr

/-- The `responseData` object `generateText` builds, returns and caches
(the spec's `GenerationResult`). -/
structure ResponseData where
  text : String
  promptTokens : Nat
  completionTokens : Nat
  totalTokens : Nat
  modelEcho : String
deriving DecidableEq, Repr

/-- Construction of `responseData` from a successful API response
(`openai.service.js` lines 209–220). -/
def mkResponseData (r : ApiResponse) : ResponseData :=
  { text := r.content, promptTokens := r.promptTokens,
    completionTokens := r.completionTokens, totalTokens := r.totalTokens,
    modelEcho := r.modelEcho }

/-- One cache write performed by `generateText`. -/
structure CacheWrite where
  key : List Char
  value : ResponseData
  ttl : Nat
deriving DecidableEq, Repr

/-- Parameters of one `generateText` call after destructuring (prompt and
system prompt as UTF-8 byte sequences; temperature as its printed decimal
form). -/
structure GenParams where
  prompt : List Nat
  systemPrompt : List Nat
  temperature : JSNum
  maxTokens : Nat
  model : String
  useCaching : Bool
deriving DecidableEq, Repr

/-- Observable outcome of one `generateText` call: result, cache writes
performed, and number of backend calls (attempts) made. -/
structure GenOutcome where
  result : Except ServiceError ResponseData
  writes : List CacheWrite
  backendCalls : Nat
deriving Repr

/-- `generateText` from `openai.service.js` (lines 151–249), over an
explicit cache state and a backend oracle giving each attempt's outcome.
With caching on, the derived key is looked up and a hit short-circuits
(lines 164–172); otherwise the API call runs under `executeWithRetry`
with the default configuration, and on success the result is written back
under the identically derived key with TTL `cacheTTL totalTokens`
(lines 222–235). -/
def generateText (cache : List Char → Option ResponseData)
    (op : Nat → Except RawError ApiResponse) (p : GenParams) : GenOutcome :=
  match (if p.useCaching then
      cache (textCacheKey p.model p.temperature p.maxTokens p.prompt
        p.systemPrompt)
    else none) with
  | some cached => { result := .ok cached, writes := [], backendCalls := 0 }
  | none =>
    match executeWithRetry op DEFAULT_CONFIG.maxRetries with
    | .succeeded resp n =>
      let responseData := mkResponseData resp
      { result := .ok responseData,
        writes :=
          if p.useCaching then
            [{ key := textCacheKey p.model p.temperature p.maxTokens
                 p.prompt p.systemPrompt,
               value := responseData,
               ttl := cacheTTL resp.totalTokens }]
          else [],
        backendCalls := n }
    | .exhausted e n => { result := .error e, writes := [], backendCalls := n }

/-! ## Controller: effective-parameter resolution and backend selection -/

/-- A stored user-preference record (`UserPreference` model) as the
controller reads it: each field may be absent. -/
structure UserPreference where
  preferredModel : Option String
  defaultTemperature : Option JSNum
  defaultSystemPrompt : Option String
deriving DecidableEq, Repr

/-- JavaScript truthiness of `userPreference?.preferredModel`: present and
non-empty. -/
def truthyOptStr : Option String → Bool
  | none => false
  | some s => !(s == "")

/-- JavaScript truthiness of `userPreference?.defaultTemperature`: present
and non-zero (`0` is falsy). -/
def truthyOptNum : Option JSNum → Bool
  | none => false
  | some t => !(t == ⟨0, []⟩)

/-- Effective model resolution from the controller (`generateText`, lines
43–45): `options.usePreferredModel && userPreference?.preferredModel ?
userPreference.preferredModel : model`, where `model` destructures with
default `'gpt-4'`. -/
def resolveEffectiveModel (reqModel : Option String) (usePreferredModel : Bool)
    (pref : Option UserPreference) : String :=
  if usePreferredModel && truthyOptStr (pref.bind (·.preferredModel)) then
    (pref.bind (·.preferredModel)).getD (reqModel.getD "gpt-4")
  else
    reqModel.getD "gpt-4"

/-- Effective temperature resolution from the controller (lines 47–49):
`options.usePreferredSettings && userPreference?.defaultTemperature ?
userPreference.defaultTemperature : temperature`, where `temperature`
destructures with default `0.7`. -/
def resolveEffectiveTemperature (reqTemp : Option JSNum)
    (usePreferredSettings : Bool) (pref : Option UserPreference) : JSNum :=
  if usePreferredSettings && truthyOptNum (pref.bind (·.defaultTemperature)) then
    (pref.bind (·.defaultTemperature)).getD (reqTemp.getD ⟨0, [7]⟩)
  else
    reqTemp.getD ⟨0, [7]⟩

/-- The backend adapter variants the controller can select. -/
inductive BackendService
  | openai
  | palm
  | anthropic
  | localLLM
deriving DecidableEq, Repr

/-- ASCII lowercasing, as `String.prototype.toLowerCase` acts on the
model identifiers involved. -/
def jsToLower (s : String) : String :=
  ⟨s.data.map fun c =>
    if 'A' ≤ c ∧ c ≤ 'Z' then Char.ofNat (c.toNat + 32) else c⟩

/-- Backend selection of single-item dispatch: the `switch` over
`effectiveModel.toLowerCase()` in the controller (lines 52–72), with
`default` falling back to the OpenAI service. -/
def selectService (model : String) : BackendService :=
  let m := jsToLower model
  if m == "gpt-4" || m == "gpt-3.5-turbo" then .openai
  else if m == "palm" || m == "gemini" then .palm
  else if m == "claude" || m == "claude-instant" then .anthropic
  else if m == "local-llama" || m == "local-mistral" then .localLLM
  else .openai

/-! ## Batch coordinator -/

/-- One element of the `prompts` array: either a bare string or an object
with `text`, `systemPrompt` and optional `maxTokens`. -/
inductive BatchPrompt
  | str (s : String)
  | obj (text : String) (systemPrompt : String) (maxTokens : Option Nat)
deriving DecidableEq, Repr

/-- One entry of the aggregated batch output (`batchGenerate` lines
218–233): fulfilled items record text and token usage, rejected items the
error message; both record their original index. -/
inductive BatchItemResult
  | ok (index : Nat) (text : String) (tokensUsed : Nat)
  | err (index : Nat) (msg : String)
deriving DecidableEq, Repr

/-- Original-batch index of an output item. -/
def BatchItemResult.index : BatchItemResult → Nat
  | .ok i _ _ => i
  | .err i _ => i

/-- Whole-batch rejection errors of `batchGenerate`. -/
inductive BatchError
  | validationError
  | tooManyRequests
deriving DecidableEq, Repr

/-- Mapping of one settled per-item outcome to its output entry. -/
def mkBatchItem (i : Nat) : Except String (String × Nat) → BatchItemResult
  | .ok (t, tok) => .ok i t tok
  | .error m => .err i m

/-- The fan-out/aggregation of `batchGenerate`: item `i` is dispatched
independently (`Promise.allSettled`), and the aggregated output records
each settled outcome at its original index. -/
def batchProcess (run : Nat → BatchPrompt → Except String (String × Nat)) :
    Nat → List BatchPrompt → List BatchItemResult
  | _, [] => []
  | i, p :: rest => mkBatchItem i (run i p) :: batchProcess run (i + 1) rest

/-- `batchGenerate` from the controller (lines 167–258), with each item's
dispatch outcome abstracted as the oracle `run`: a non-empty array is
required, at most 10 prompts are accepted, and otherwise every item is
dispatched and settled independently. -/
def batchGenerate (run : Nat → BatchPrompt → Except String (String × Nat))
    (prompts : List BatchPrompt) : Except BatchError (List BatchItemResult) :=
  if prompts.length = 0 then .error .validationError
  else if prompts.length > 10 then .error .tooManyRequests
  else .ok (batchProcess run 0 prompts)

theorem batchProcess_length (run : Nat → BatchPrompt → Except String (String × Nat)) :
    ∀ (i : Nat) (l : List BatchPrompt), (batchProcess run i l).length = l.length := by
  intro i l
  induction l generalizing i with
  | nil => rfl
  | cons p rest ih => simp [batchProcess, ih]

theorem batchProcess_get? (run : Nat → BatchPrompt → Except String (String × Nat)) :
    ∀ (i : Nat) (l : List BatchPrompt) (j : Nat),
      (batchProcess run i l).get? j =
        (l.get? j).map (fun p => mkBatchItem (i + j) (run (i + j) p)) := by
  intro i l
  induction l generalizing i with
  | nil => intro j; simp [batchProcess]
  | cons p rest ih =>
    intro j
    cases j with
    | zero => simp [batchProcess]
    | succ j' =>
      have := ih (i + 1) j'
      have hidx : i + 1 + j' = i + (j' + 1) := by omega
      simp only [batchProcess, List.get?_cons_succ, this, hidx]

/-- The index recorded in a batch output entry. -/
theorem mkBatchItem_index (i : Nat) (o : Except String (String × Nat)) :
    (mkBatchItem i o).index = i := by
  cases o with
  | ok v => cases v; rfl
  | error m => rfl

/-! ## Concrete instances used by witnesses and counterexamples -/

/-- A first-attempt 400 context-length failure. -/
def ctxLengthRawError : RawError :=
  ⟨"Request failed with status code 400", none,
    some ⟨400, some "context_length_exceeded"⟩⟩

/-- An operation whose every attempt fails with the context-length error. -/
def ctxLengthOp : Nat → Except RawError Nat :=
  fun _ => Except.error ctxLengthRawError

/-- A composite raw error carrying both an HTTP response (status 418) and a
connection-reset code. -/
def compositeRawError : RawError := ⟨"", some "ECONNRESET", some ⟨418, none⟩⟩

/-- The sample successful backend response of the spec's scenario
(`{text: "Hi there", usage: {promptTokens: 5, completionTokens: 3,
totalTokens: 8}}`). -/
def sampleResp : ApiResponse := ⟨"Hi there", 5, 3, 8, "gpt-4"⟩

/-- The UTF-8 bytes of `"Hello"`. -/
def helloBytes : List Nat := [72, 101, 108, 108, 111]

/-- Sample `generateText` parameters with caching enabled. -/
def sampleParams : GenParams := ⟨helloBytes, [], ⟨0, [7]⟩, 1000, "gpt-4", true⟩

/-- An empty cache. -/
def emptyCache : List Char → Option ResponseData := fun _ => none

/-- A backend oracle that succeeds on every attempt with `sampleResp`. -/
def sampleOp : Nat → Except RawError ApiResponse := fun _ => .ok sampleResp

/-- The cache write the sample dispatch performs. -/
def sampleWrite : CacheWrite :=
  ⟨textCacheKey "gpt-4" ⟨0, [7]⟩ 1000 helloBytes [],
   mkResponseData sampleResp, 1800⟩

/-- A cached result used for the cache-hit scenario. -/
def hitData : ResponseData := ⟨"cached text", 1, 2, 3, "gpt-4"⟩

/-- A cache holding `hitData` exactly at the sample request's derived key. -/
def hitCache : List Char → Option ResponseData :=
  fun k =>
    if k = textCacheKey "gpt-4" ⟨0, [7]⟩ 1000 helloBytes [] then some hitData
    else none

/-- A backend oracle whose invocation would be visible as a failure. -/
def neverOp : Nat → Except RawError ApiResponse :=
  fun _ => .error ⟨"backend must not be called", none, none⟩

/-- A preference record with a stored preferred model. -/
def samplePref : UserPreference := ⟨some "gpt-4", some ⟨1, [5]⟩, none⟩

/-- A per-item dispatch oracle: item 1 fails, the others succeed. -/
def batchRun : Nat → BatchPrompt → Except String (String × Nat) :=
  fun i _ => if i = 1 then .error "Unauthorized" else .ok ("ok", 2)

/-- A two-item batch input. -/
def batchPrompts : List BatchPrompt := [.str "a", .obj "b" "sys" (some 50)]

/-- A per-item dispatch oracle that always succeeds. -/
def okRun : Nat → BatchPrompt → Except String (String × Nat) :=
  fun _ _ => .ok ("x", 1)

/-- The output of `batchGenerate okRun [.str "a"]`. -/
def okOut : List BatchItemResult := [.ok 0 "x" 1]

/-! ## Claims -/

/-- C1: for every wrapped operation and failure, the retry engine
re-attempts (attempt `k + 1` is made) if and only if attempt `k` failed
with an error the classifier marks retryable and `k` has not reached the
configured maximum; and a non-retryable first-attempt failure (such as a
400 with context-length sub-code) is surfaced immediately after exactly
one attempt, mapped through `mapToServiceError`. -/
theorem C1_retry_iff_retryable (op : Nat → Except RawError α) (m k : Nat)
    (e0 : RawError) (hk : k < (executeWithRetry op m).attempts) :
    ((k + 1 < (executeWithRetry op m).attempts) ↔
      ((∃ e, op k = Except.error e ∧ isRetryableError e = true) ∧ k < m))
    ∧ (op 0 = Except.error e0 → isRetryableError e0 = false →
        executeWithRetry op m =
          RetryOutcome.exhausted (mapToServiceError (some e0)) 1) := by
  constructor
  · exact retryGo_reattempt_iff op m (m + 1) 0 none (by omega) k (Nat.zero_le k) hk
  · intro h0 hre
    unfold executeWithRetry
    cases m with
    | zero => simp [retryGo, h0, hre]
    | succ m' => simp [retryGo, h0, hre]

/-- Witness for C1 at the spec's own scenario: every attempt fails with a
400 context-length error, `maxRetries = 2`; attempt 0 is made, no second
attempt follows, and the run is exhausted after exactly one attempt. -/
theorem C1_retry_iff_retryable_witness :
    0 < (executeWithRetry ctxLengthOp 2).attempts ∧
    (((0 + 1 < (executeWithRetry ctxLengthOp 2).attempts) ↔
      ((∃ e, ctxLengthOp 0 = Except.error e ∧ isRetryableError e = true) ∧
        0 < 2))
    ∧ (ctxLengthOp 0 = Except.error ctxLengthRawError →
        isRetryableError ctxLengthRawError = false →
        executeWithRetry ctxLengthOp 2 =
          RetryOutcome.exhausted (mapToServiceError (some ctxLengthRawError)) 1)) :=
  ⟨by decide, C1_retry_iff_retryable ctxLengthOp 2 0 ctxLengthRawError (by decide)⟩

/-- C2: the retry engine always reaches a terminal state (`succeeded` or
`exhausted`) within `maxRetries + 1` attempts; with the default
configuration (`maxRetries = 2`) that is at most 3 total attempts. -/
theorem C2_retry_terminates (op : Nat → Except RawError α) (m : Nat) :
    (executeWithRetry op m).attempts ≤ m + 1 ∧
    ((∃ v n, executeWithRetry op m = RetryOutcome.succeeded v n) ∨
     (∃ e n, executeWithRetry op m = RetryOutcome.exhausted e n)) ∧
    DEFAULT_CONFIG.maxRetries = 2 ∧
    (executeWithRetry op DEFAULT_CONFIG.maxRetries).attempts ≤ 3 := by
  refine ⟨?_, ?_, rfl, ?_⟩
  · have := retryGo_attempts_le op m (m + 1) 0 none
    simpa [executeWithRetry] using this
  · cases h : executeWithRetry op m with
    | succeeded v n => exact Or.inl ⟨v, n, rfl⟩
    | exhausted e n => exact Or.inr ⟨e, n, rfl⟩
  · have := retryGo_attempts_le op DEFAULT_CONFIG.maxRetries
      (DEFAULT_CONFIG.maxRetries + 1) 0 none
    simpa [executeWithRetry, DEFAULT_CONFIG] using this

/-- C3 counterexample: a raw failure carrying both an HTTP response with an
unlisted status (418) and a connection-reset code.  The spec's decision
table (rows in order) classifies it `NetworkTransient`, hence retryable,
but the source's `isRetryableError` consults only the response's status
once a response is present and does not retry it. -/
theorem C3_counterexample :
    classifySpec compositeRawError = ErrorKind.networkTransient ∧
    retryableSpec (classifySpec compositeRawError) = true ∧
    isRetryableError compositeRawError = false := by decide

/-- C3 amended: for every raw failure in which an attached HTTP response
excludes the timeout indication and connection-failure codes (as real
backend failures satisfy), the classification the code implements agrees
exactly with the spec's decision table: the retry decision equals
membership of the classified kind in the retryable set, and the surfaced
error's attached code equals the one the taxonomy prescribes (kinds
surfaced as the raw error pass through with no attached code). -/
theorem C3_classification_amended (e : RawError)
    (hexc : e.response.isSome = true →
      hasTimeoutMarker e = false ∧ hasConnFailureCode e = false) :
    isRetryableError e = retryableSpec (classifySpec e) ∧
    serviceErrorCode (mapToServiceError (some e)) = specErrorCode (classifySpec e) := by
  obtain ⟨msg, code, resp⟩ := e
  cases resp with
  | none =>
    cases htm : hasTimeoutMarker ⟨msg, code, none⟩ with
    | true =>
      unfold hasTimeoutMarker at htm
      simp only at htm
      constructor
      · unfold isRetryableError classifySpec retryableSpec hasTimeoutMarker
        simp [htm]
      · unfold classifySpec hasTimeoutMarker mapToServiceError serviceErrorCode
          specErrorCode
        simp [htm]
    | false =>
      unfold hasTimeoutMarker at htm
      simp only at htm
      cases hcc : hasConnFailureCode ⟨msg, code, none⟩ with
      | true =>
        unfold hasConnFailureCode at hcc
        simp only at hcc
        constructor
        · unfold isRetryableError classifySpec retryableSpec hasTimeoutMarker
            hasConnFailureCode
          simp [htm, hcc]
        · unfold classifySpec hasTimeoutMarker hasConnFailureCode
            mapToServiceError serviceErrorCode specErrorCode
          simp [htm, hcc]
      | false =>
        unfold hasConnFailureCode at hcc
        simp only at hcc
        constructor
        · unfold isRetryableError classifySpec retryableSpec hasTimeoutMarker
            hasConnFailureCode
          simp [htm, hcc]
        · unfold classifySpec hasTimeoutMarker hasConnFailureCode
            mapToServiceError serviceErrorCode specErrorCode
          simp [htm, hcc]
  | some r =>
    obtain ⟨htm, hcc⟩ := hexc (by simp)
    obtain ⟨st, dc⟩ := r
    unfold hasTimeoutMarker at htm
    unfold hasConnFailureCode at hcc
    simp only at htm hcc
    constructor
    · unfold isRetryableError classifySpec retryableSpec hasTimeoutMarker
        hasConnFailureCode
      simp only [htm, hcc, Option.any_some, Bool.false_eq_true, if_false]
      by_cases h1 : st = 429
      · simp [h1]
      · by_cases h2 : st = 500
        · simp [h1, h2]
        · by_cases h3 : st = 502
          · simp [h1, h2, h3]
          · by_cases h4 : st = 503
            · simp [h1, h2, h3, h4]
            · by_cases h5 : st = 504
              · simp [h1, h2, h3, h4, h5]
              · by_cases h6 : st = 400 ∧ dc = some "context_length_exceeded"
                · simp [h1, h2, h3, h4, h5, h6.1, h6.2]
                · by_cases h7 : st = 401
                  · simp [h1, h2, h3, h4, h5, h7]
                  · by_cases h8 : st = 403
                    · simp [h1, h2, h3, h4, h5, h8]
                    · by_cases h9 : st = 404
                      · simp [h1, h2, h3, h4, h5, h9]
                      · simp [h1, h2, h3, h4, h5, h6, h7, h8, h9]
    · unfold classifySpec hasTimeoutMarker hasConnFailureCode mapToServiceError
        serviceErrorCode specErrorCode
      simp only [htm, hcc, Option.any_some, Bool.false_eq_true, if_false]
      by_cases h1 : st = 429
      · simp [h1]
      · by_cases h2 : st = 500
        · simp [h1, h2]
        · by_cases h3 : st = 502
          · simp [h1, h2, h3]
          · by_cases h4 : st = 503
            · simp [h1, h2, h3, h4]
            · by_cases h5 : st = 504
              · simp [h1, h2, h3, h4, h5]
              · by_cases h6 : st = 400 ∧ dc = some "context_length_exceeded"
                · simp [h1, h2, h3, h4, h5, h6.1, h6.2]
                · by_cases h7 : st = 401
                  · simp [h1, h2, h3, h4, h5, h7]
                  · by_cases h8 : st = 403
                    · simp [h1, h2, h3, h4, h5, h8]
                    · by_cases h9 : st = 404
                      · simp [h1, h2, h3, h4, h5, h9]
                      · by_cases h10 : st = 400
                        · have hdc : dc ≠ some "context_length_exceeded" := by
                            intro hc
                            exact h6 ⟨h10, hc⟩
                          simp [h1, h2, h3, h4, h5, h7, h8, h9, h10, hdc]
                        · simp [h1, h2, h3, h4, h5, h6, h7, h8, h9, h10]

/-- Witness for C3 amended at the 400 context-length failure: the response
excludes timeout and connection markers, the code does not retry it, and
it surfaces carrying the context-length error code. -/
theorem C3_classification_amended_witness :
    (ctxLengthRawError.response.isSome = true →
      hasTimeoutMarker ctxLengthRawError = false ∧
      hasConnFailureCode ctxLengthRawError = false) ∧
    (isRetryableError ctxLengthRawError =
      retryableSpec (classifySpec ctxLengthRawError) ∧
     serviceErrorCode (mapToServiceError (some ctxLengthRawError)) =
      specErrorCode (classifySpec ctxLengthRawError)) :=
  ⟨by decide, C3_classification_amended ctxLengthRawError (by decide)⟩

/-- Every cache write `generateText` performs happens on the success path,
under the identically derived key, with TTL `cacheTTL totalTokens`. -/
theorem generateText_writes_mem (cache : List Char → Option ResponseData)
    (op : Nat → Except RawError ApiResponse) (p : GenParams) (w : CacheWrite)
    (hw : w ∈ (generateText cache op p).writes) :
    ∃ resp n, executeWithRetry op DEFAULT_CONFIG.maxRetries =
        RetryOutcome.succeeded resp n ∧
      w = ⟨textCacheKey p.model p.temperature p.maxTokens p.prompt
            p.systemPrompt,
           mkResponseData resp, cacheTTL resp.totalTokens⟩ := by
  unfold generateText at hw
  cases hhit : (if p.useCaching then
      cache (textCacheKey p.model p.temperature p.maxTokens p.prompt
        p.systemPrompt)
    else none) with
  | some cached => rw [hhit] at hw; simp at hw
  | none =>
    rw [hhit] at hw
    cases hret : executeWithRetry op DEFAULT_CONFIG.maxRetries with
    | succeeded resp n =>
      rw [hret] at hw
      simp only at hw
      by_cases hc : p.useCaching = true
      · rw [if_pos hc] at hw
        rw [List.mem_singleton] at hw
        exact ⟨resp, n, rfl, hw⟩
      · rw [if_neg hc] at hw
        simp at hw
    | exhausted e n => rw [hret] at hw; simp at hw

/-- C4: the TTL of every cache write after a successful generation equals
`clamp(totalTokens * 20, 1800, 86400)` and therefore always lies between
30 minutes and 24 hours. -/
theorem C4_ttl_policy (t : Nat) (cache : List Char → Option ResponseData)
    (op : Nat → Except RawError ApiResponse) (p : GenParams) (w : CacheWrite)
    (hw : w ∈ (generateText cache op p).writes) :
    cacheTTL t = min 86400 (max 1800 (t * 20)) ∧
    1800 ≤ cacheTTL t ∧ cacheTTL t ≤ 86400 ∧
    w.ttl = cacheTTL w.value.totalTokens ∧ 1800 ≤ w.ttl ∧ w.ttl ≤ 86400 := by
  obtain ⟨resp, n, _, rfl⟩ := generateText_writes_mem cache op p w hw
  refine ⟨by unfold cacheTTL; omega, by unfold cacheTTL; omega,
    by unfold cacheTTL; omega, rfl, ?_, ?_⟩
  · show 1800 ≤ cacheTTL resp.totalTokens
    unfold cacheTTL
    omega
  · show cacheTTL resp.totalTokens ≤ 86400
    unfold cacheTTL
    omega

/-- Witness for C4 at the spec's scenario: a successful call with
`totalTokens = 8` writes with TTL `max(1800, min(86400, 160)) = 1800`. -/
theorem C4_ttl_policy_witness :
    sampleWrite ∈ (generateText emptyCache sampleOp sampleParams).writes ∧
    (cacheTTL 8 = min 86400 (max 1800 (8 * 20)) ∧
     1800 ≤ cacheTTL 8 ∧ cacheTTL 8 ≤ 86400 ∧
     sampleWrite.ttl = cacheTTL sampleWrite.value.totalTokens ∧
     1800 ≤ sampleWrite.ttl ∧ sampleWrite.ttl ≤ 86400) :=
  ⟨by decide,
   C4_ttl_policy 8 emptyCache sampleOp sampleParams sampleWrite (by decide)⟩

/-- C5: cache-key derivation is deterministic and injective — two valid
parameter tuples yield the same key exactly when all fields coincide — and
every cache write uses the same derived key as the pre-call lookup. -/
theorem C5_cache_key_deterministic_injective
    (m1 m2 : String) (t1 t2 : JSNum) (x1 x2 : Nat) (p1 s1 p2 s2 : List Nat)
    (ht1 : t1.valid) (ht2 : t2.valid)
    (hp1 : ValidBytes p1) (hs1 : ValidBytes s1)
    (hp2 : ValidBytes p2) (hs2 : ValidBytes s2) :
    (textCacheKey m1 t1 x1 p1 s1 = textCacheKey m2 t2 x2 p2 s2 ↔
      (m1 = m2 ∧ t1 = t2 ∧ x1 = x2 ∧ p1 = p2 ∧ s1 = s2)) ∧
    (∀ (cache : List Char → Option ResponseData)
       (op : Nat → Except RawError ApiResponse) (p : GenParams),
       ∀ w ∈ (generateText cache op p).writes,
         w.key = textCacheKey p.model p.temperature p.maxTokens p.prompt
           p.systemPrompt) := by
  constructor
  · constructor
    · intro h
      exact textCacheKey_injective m1 m2 t1 t2 x1 x2 p1 s1 p2 s2
        ht1.1 ht2.1 hp1 hs1 hp2 hs2 h
    · rintro ⟨rfl, rfl, rfl, rfl, rfl⟩
      rfl
  · intro cache op p w hw
    obtain ⟨resp, n, _, rfl⟩ := generateText_writes_mem cache op p w hw
    rfl

/-- Witness for C5 at a concrete pair of valid tuples. -/
theorem C5_cache_key_witness :
    ((⟨0, [7]⟩ : JSNum).valid ∧ ValidBytes helloBytes ∧
      ValidBytes ([] : List Nat)) ∧
    ((textCacheKey "gpt-4" ⟨0, [7]⟩ 1000 helloBytes [] =
        textCacheKey "gpt-4" ⟨0, [7]⟩ 1000 helloBytes [] ↔
      ("gpt-4" = "gpt-4" ∧ (⟨0, [7]⟩ : JSNum) = ⟨0, [7]⟩ ∧ 1000 = 1000 ∧
        helloBytes = helloBytes ∧ ([] : List Nat) = [])) ∧
     (∀ (cache : List Char → Option ResponseData)
        (op : Nat → Except RawError ApiResponse) (p : GenParams),
        ∀ w ∈ (generateText cache op p).writes,
          w.key = textCacheKey p.model p.temperature p.maxTokens p.prompt
            p.systemPrompt)) :=
  ⟨⟨by decide, by decide, by decide⟩,
   C5_cache_key_deterministic_injective "gpt-4" "gpt-4" ⟨0, [7]⟩ ⟨0, [7]⟩
     1000 1000 helloBytes [] helloBytes [] (by decide) (by decide)
     (by decide) (by decide) (by decide) (by decide)⟩

/-- C6: with caching enabled, a request whose derived key is present in
the cache returns the cached result, performs zero backend calls and zero
cache writes. -/
theorem C6_cache_hit (cache : List Char → Option ResponseData)
    (op : Nat → Except RawError ApiResponse) (p : GenParams)
    (r : ResponseData) (hc : p.useCaching = true)
    (hhit : cache (textCacheKey p.model p.temperature p.maxTokens p.prompt
        p.systemPrompt) = some r) :
    generateText cache op p =
      { result := Except.ok r, writes := [], backendCalls := 0 } := by
  unfold generateText
  rw [if_pos hc, hhit]

/-- Witness for C6: repeating the sample request against a cache holding
its result makes no backend call and no write. -/
theorem C6_cache_hit_witness :
    (sampleParams.useCaching = true ∧
     hitCache (textCacheKey sampleParams.model sampleParams.temperature
        sampleParams.maxTokens sampleParams.prompt
        sampleParams.systemPrompt) = some hitData) ∧
    generateText hitCache neverOp sampleParams =
      { result := Except.ok hitData, writes := [], backendCalls := 0 } :=
  ⟨⟨rfl, by decide⟩,
   C6_cache_hit hitCache neverOp sampleParams hitData rfl (by decide)⟩

/-- C7 counterexample: with an explicit request model (`"claude"`), the
opt-in flag set and a stored preference (`"gpt-4"`), the controller
resolves the preference, not the explicit request value — the claimed
precedence (explicit over preference) does not hold. -/
theorem C7_counterexample :
    resolveEffectiveModel (some "claude") true
        (some ⟨some "gpt-4", none, none⟩) = "gpt-4" ∧
    resolveEffectiveModel (some "claude") true
        (some ⟨some "gpt-4", none, none⟩) ≠ "claude" := by decide

/-- C7 amended: the resolved effective model and temperature follow the
precedence the code implements — the user's stored preference whenever the
request opted in and the stored value is truthy (non-empty model,
non-zero temperature), otherwise the explicit request value when present,
otherwise the system default (`'gpt-4'`, `0.7`) — and are total (never
undefined). -/
theorem C7_effective_params_amended (reqModel : Option String)
    (usePrefModel : Bool) (reqTemp : Option JSNum) (usePrefSettings : Bool)
    (pref : Option UserPreference) :
    (usePrefModel = false ∨ truthyOptStr (pref.bind (·.preferredModel)) = false →
      resolveEffectiveModel reqModel usePrefModel pref = reqModel.getD "gpt-4") ∧
    (∀ s, usePrefModel = true → pref.bind (·.preferredModel) = some s →
      s ≠ "" → resolveEffectiveModel reqModel usePrefModel pref = s) ∧
    (usePrefSettings = false ∨
        truthyOptNum (pref.bind (·.defaultTemperature)) = false →
      resolveEffectiveTemperature reqTemp usePrefSettings pref =
        reqTemp.getD ⟨0, [7]⟩) ∧
    (∀ t, usePrefSettings = true → pref.bind (·.defaultTemperature) = some t →
      t ≠ ⟨0, []⟩ →
      resolveEffectiveTemperature reqTemp usePrefSettings pref = t) := by
  refine ⟨?_, ?_, ?_, ?_⟩
  · intro h
    unfold resolveEffectiveModel
    rcases h with h | h
    · rw [h]
      simp
    · rw [h]
      simp
  · intro s hu hs hne
    unfold resolveEffectiveModel
    rw [hu, hs]
    have ht : truthyOptStr (some s) = true := by
      unfold truthyOptStr
      simp [hne]
    simp [ht]
  · intro h
    unfold resolveEffectiveTemperature
    rcases h with h | h
    · rw [h]
      simp
    · rw [h]
      simp
  · intro t hu ht hne
    unfold resolveEffectiveTemperature
    rw [hu, ht]
    have htr : truthyOptNum (some t) = true := by
      unfold truthyOptNum
      simp [hne]
    simp [htr]

/-- Witness for C7 amended at concrete inputs: opted in with a stored
preference, the preference wins; with the flag off, the explicit request
value is used. -/
theorem C7_effective_params_amended_witness :
    (resolveEffectiveModel (some "claude") false (some samplePref) =
        (some "claude").getD "gpt-4") ∧
    (true = true ∧ (some samplePref).bind (·.preferredModel) = some "gpt-4" ∧
      "gpt-4" ≠ "" ∧
      resolveEffectiveModel (some "claude") true (some samplePref) = "gpt-4") :=
  ⟨(C7_effective_params_amended (some "claude") false (some ⟨0, [7]⟩) false
      (some samplePref)).1 (Or.inl rfl),
   rfl, by decide, by decide,
   (C7_effective_params_amended (some "claude") true (some ⟨0, [7]⟩) false
      (some samplePref)).2.1 "gpt-4" rfl (by decide) (by decide)⟩

/-- C8: backend selection is total on model identifiers — the lowercase
switch maps the two OpenAI names, the PaLM, Anthropic and local families
to their adapters, and every other string (any unrecognized model name)
selects the default OpenAI adapter rather than raising an error. -/
theorem C8_backend_selection (model : String)
    (h : jsToLower model ∉
      (["palm", "gemini", "claude", "claude-instant", "local-llama",
        "local-mistral"] : List String)) :
    selectService model = BackendService.openai ∧
    selectService "gpt-4" = BackendService.openai ∧
    selectService "GPT-4" = BackendService.openai ∧
    selectService "gpt-3.5-turbo" = BackendService.openai ∧
    selectService "palm" = BackendService.palm ∧
    selectService "gemini" = BackendService.palm ∧
    selectService "claude" = BackendService.anthropic ∧
    selectService "claude-instant" = BackendService.anthropic ∧
    selectService "local-llama" = BackendService.localLLM ∧
    selectService "local-mistral" = BackendService.localLLM := by
  refine ⟨?_, by decide, by decide, by decide, by decide, by decide,
    by decide, by decide, by decide, by decide⟩
  unfold selectService
  simp only [List.mem_cons, List.not_mem_nil, or_false, not_or] at h
  obtain ⟨h1, h2, h3, h4, h5, h6⟩ := h
  by_cases hg : (jsToLower model == "gpt-4" || jsToLower model == "gpt-3.5-turbo") = true
  · rw [if_pos hg]
  · rw [if_neg hg, if_neg, if_neg, if_neg]
    · simp only [Bool.or_eq_true, beq_iff_eq]
      rintro (h' | h') <;> simp_all
    · simp only [Bool.or_eq_true, beq_iff_eq]
      rintro (h' | h') <;> simp_all
    · simp only [Bool.or_eq_true, beq_iff_eq]
      rintro (h' | h') <;> simp_all

/-- Witness for C8 at an unrecognized model name. -/
theorem C8_backend_selection_witness :
    (jsToLower "Mistral-Large-v2" ∉
      (["palm", "gemini", "claude", "claude-instant", "local-llama",
        "local-mistral"] : List String)) ∧
    selectService "Mistral-Large-v2" = BackendService.openai :=
  ⟨by decide, (C8_backend_selection "Mistral-Large-v2" (by decide)).1⟩

/-- C9 counterexample: the empty prompt sequence has length `0 ≤ 10`, yet
`batchGenerate` rejects it with a validation error instead of returning
the (unique) length-0 output list. -/
theorem C9_counterexample :
    batchGenerate batchRun [] = Except.error BatchError.validationError ∧
    Except.error BatchError.validationError ≠
      (Except.ok [] : Except BatchError (List BatchItemResult)) :=
  ⟨rfl, by simp⟩

/-- C9 amended: for every non-empty input sequence of length at most 10,
every item is dispatched and settled independently — the output has the
input's length, `output[i]` is the settled outcome of item `i` alone, and
`output[i].index = i` — while a sequence of more than 10 prompts is
rejected wholesale with a single error before any item is dispatched. -/
theorem C9_batch_shape_amended
    (run : Nat → BatchPrompt → Except String (String × Nat))
    (prompts : List BatchPrompt) (h1 : 1 ≤ prompts.length) :
    (prompts.length ≤ 10 →
      ∃ out, batchGenerate run prompts = Except.ok out ∧
        out.length = prompts.length ∧
        (∀ j, out.get? j =
          (prompts.get? j).map (fun p => mkBatchItem j (run j p))) ∧
        (∀ j item, out.get? j = some item → item.index = j)) ∧
    (10 < prompts.length →
      batchGenerate run prompts = Except.error BatchError.tooManyRequests) := by
  constructor
  · intro h10
    refine ⟨batchProcess run 0 prompts, ?_, batchProcess_length run 0 prompts, ?_, ?_⟩
    · unfold batchGenerate
      rw [if_neg (by omega), if_neg (by omega)]
    · intro j
      have := batchProcess_get? run 0 prompts j
      simpa using this
    · intro j item hj
      have := batchProcess_get? run 0 prompts j
      simp only [Nat.zero_add] at this
      rw [this] at hj
      cases hp : prompts.get? j with
      | none => rw [hp] at hj; simp at hj
      | some p =>
        rw [hp] at hj
        simp only [Option.map_some', Option.some.injEq] at hj
        rw [← hj]
        exact mkBatchItem_index j (run j p)
  · intro h10
    unfold batchGenerate
    rw [if_neg (by omega), if_pos (by omega)]

/-- Witness for C9 amended: a two-item batch where item 1 fails — both
outcomes are recorded at their original indices. -/
theorem C9_batch_shape_amended_witness :
    1 ≤ batchPrompts.length ∧
    ((batchPrompts.length ≤ 10 →
      ∃ out, batchGenerate batchRun batchPrompts = Except.ok out ∧
        out.length = batchPrompts.length ∧
        (∀ j, out.get? j =
          (batchPrompts.get? j).map (fun p => mkBatchItem j (batchRun j p))) ∧
        (∀ j item, out.get? j = some item → item.index = j)) ∧
    (10 < batchPrompts.length →
      batchGenerate batchRun batchPrompts =
        Except.error BatchError.tooManyRequests)) :=
  ⟨by decide, C9_batch_shape_amended batchRun batchPrompts (by decide)⟩

/-- C10: batch generation requires a non-empty prompt sequence — the empty
sequence fails with one validation error before any dispatch, and a
successful batch output is never the empty list. -/
theorem C10_batch_nonempty
    (run : Nat → BatchPrompt → Except String (String × Nat))
    (prompts : List BatchPrompt) (out : List BatchItemResult) :
    batchGenerate run ([] : List BatchPrompt) =
      Except.error BatchError.validationError ∧
    (batchGenerate run prompts = Except.ok out → 1 ≤ out.length ∧ out ≠ []) := by
  constructor
  · rfl
  · intro h
    unfold batchGenerate at h
    by_cases h0 : prompts.length = 0
    · rw [if_pos h0] at h
      cases h
    · rw [if_neg h0] at h
      by_cases h10 : prompts.length > 10
      · rw [if_pos h10] at h
        cases h
      · rw [if_neg h10] at h
        injection h with hout
        subst hout
        rw [batchProcess_length]
        constructor
        · omega
        · intro hnil
          have := congrArg List.length hnil
          rw [batchProcess_length] at this
          simp only [List.length_nil] at this
          omega

/-- Witness for C10: a singleton batch succeeds with a singleton,
non-empty output. -/
theorem C10_batch_nonempty_witness : 1 ≤ okOut.length ∧ okOut ≠ [] :=
  (C10_batch_nonempty okRun [BatchPrompt.str "a"] okOut).2 rfl

end CreativeAI
